import Mathlib

/-!
Verification of the agentic_ai_framework repository: a shallow embedding of
the agent session/conversation lifecycle, the pattern-based
natural-language-to-SQL translator, the Oracle connector state machine and
the agent registry loader, together with theorems settling the spec claims.

Conventions: Python dictionaries become association lists, `datetime.now()`
becomes an explicit `now : Nat` clock argument, a raised exception becomes
`Except.error`, and Python `None` becomes `Option.none`.  String case
conversion and containment are computed on the underlying character lists
so that every definition evaluates by kernel reduction.
-/

/-- Lower-cased character list of a string (Python `s.lower()`). -/
def lowerChars (s : String) : List Char := s.data.map Char.toLower

/-- Upper-cased character list of a string (Python `s.upper()`). -/
def upperChars (s : String) : List Char := s.data.map Char.toUpper

/-- Contiguous-sublist containment on character lists: the semantics of the
Python expression `needle in hay` on strings (the empty needle occurs in
every string). -/
def charsContain (hay needle : List Char) : Bool :=
  (List.range (hay.length + 1)).any (fun i => needle.isPrefixOf (hay.drop i))

/-- Python `any(word in s for word in words)` where `s` is already a
character list and the keywords are string literals. -/
def containsAny (s : List Char) (words : List String) : Bool :=
  words.any (fun w => charsContain s w.data)

/-- A single-quote character as a string, used when rebuilding the SQL
literal quoting of the source's describe query. -/
def quoteMark : String := String.singleton (Char.ofNat 39)

/-- Embeds `DatabaseChatAgent.extract_table_name`
(src/agents/database_chat_agent.py lines 953-963): upper-case the user
input and return the first table of the catalog whose name (verbatim)
occurs in the upper-cased input, or `none`. -/
def extract_table_name (tables : List String) (user_input : String) :
    Option String :=
  let u := upperChars user_input
  tables.find? (fun t => charsContain u t.data)

/-- Embeds the table-matching loop of the earlier
`DatabaseChatAgent.natural_language_to_sql`
(src/agents/database_chat_agent.py lines 487-491): the first table of the
catalog whose lower-cased name occurs in the lower-cased input. -/
def mentioned_table (tables : List String) (user_input : String) :
    Option String :=
  let l := lowerChars user_input
  tables.find? (fun t => charsContain l (lowerChars t))

/-- Embeds the earlier (shadowed) definition of
`DatabaseChatAgent.natural_language_to_sql`
(src/agents/database_chat_agent.py lines 472-511). `hasConnector` models
`self.oracle_connector` being non-null and `tables` the result of its
`get_table_list()`. -/
def natural_language_to_sql_v1 (hasConnector : Bool) (tables : List String)
    (user_input : String) : Option String :=
  let l := lowerChars user_input
  if !hasConnector then none
  else if containsAny l ["show", "list", "display"] && charsContain l "table".data then
    some "SELECT table_name FROM user_tables ORDER BY table_name"
  else
    let fromTable : Option String :=
      match mentioned_table tables user_input with
      | some t =>
        if containsAny l ["count", "how many", "total"] then
          some ("SELECT COUNT(*) as total_rows FROM " ++ t)
        else if containsAny l ["show", "display", "list", "all"] then
          if containsAny l ["first", "top", "10", "sample"] then
            some ("SELECT * FROM " ++ t ++ " WHERE ROWNUM <= 10")
          else
            some ("SELECT * FROM " ++ t)
        else if charsContain l "describe".data || charsContain l "structure".data then
          some ("SELECT column_name, data_type, nullable FROM user_tab_columns WHERE table_name = "
            ++ quoteMark ++ t ++ quoteMark ++ " ORDER BY column_id")
        else none
      | none => none
    match fromTable with
    | some q => some q
    | none =>
      if charsContain l "tables".data && containsAny l ["show", "list"] then
        some "SELECT table_name FROM user_tables ORDER BY table_name"
      else none

/-- Maximal runs of decimal digits in a character list, the semantics of
the Python expression `re.findall(r"\d+", s)`. -/
def digitRuns : List Char → List Char → List String
  | [], cur => if cur.isEmpty then [] else [String.mk cur.reverse]
  | c :: rest, cur =>
    if c.isDigit then digitRuns rest (c :: cur)
    else if cur.isEmpty then digitRuns rest []
    else String.mk cur.reverse :: digitRuns rest []

/-- Embeds the later definition of
`DatabaseChatAgent.natural_language_to_sql`
(src/agents/database_chat_agent.py lines 965-989), the one effectively
bound on the class since in a Python class body the later `def` of the
same name shadows the earlier one. `tables` models `self.get_table_list()`
consulted by `extract_table_name`. -/
def natural_language_to_sql_v2 (tables : List String) (user_input : String) :
    Option String :=
  let l := lowerChars user_input
  if charsContain l "all".data && charsContain l "from".data then
    match extract_table_name tables user_input with
    | some t => some ("SELECT * FROM " ++ t)
    | none => none
  else if charsContain l "count".data then
    match extract_table_name tables user_input with
    | some t => some ("SELECT COUNT(*) FROM " ++ t)
    | none => none
  else if containsAny l ["top", "first", "limit"] then
    match extract_table_name tables user_input with
    | some t =>
      let numbers := digitRuns user_input.data []
      let lim := numbers.headD "10"
      some ("SELECT * FROM " ++ t ++ " WHERE ROWNUM <= " ++ lim)
    | none => none
  else none

/-- A conversation message as built by `BaseAgent.add_to_conversation`
(src/agents/agent_registry.py lines 137-148): role, content, a timestamp
drawn from the clock, and a metadata mapping defaulting to empty. -/
structure Message where
  role : String
  content : String
  timestamp : Nat
  metadata : List (String × String)
deriving DecidableEq, Repr

/-- The per-agent session record created by `BaseAgent.initialize_session`
(src/agents/agent_registry.py lines 109-120). -/
structure SessionData where
  initialized : Bool
  last_activity : Nat
  context : List (String × String)
  history : List String
deriving DecidableEq, Repr

/-- The slice of `st.session_state` owned by one agent: the value stored
under its `session_key` and the value stored under its `conversation_key`
(`none` models the key being absent from the session-state store). -/
structure AgentState where
  session : Option SessionData
  conversation : Option (List Message)
deriving DecidableEq, Repr

/-- Embeds `BaseAgent.initialize_session`
(src/agents/agent_registry.py lines 109-120): create the session record
and the empty conversation list only for the keys that are absent. -/
def initialize_session (st : AgentState) (now : Nat) : AgentState :=
  { session :=
      match st.session with
      | none => some { initialized := true, last_activity := now,
                       context := [], history := [] }
      | some s => some s,
    conversation :=
      match st.conversation with
      | none => some []
      | some c => some c }

/-- Embeds `BaseAgent.get_conversation_history`
(src/agents/agent_registry.py lines 133-135):
`st.session_state.get(conversation_key, [])`. -/
def get_conversation_history (st : AgentState) : List Message :=
  st.conversation.getD []

/-- Embeds `BaseAgent.add_to_conversation`
(src/agents/agent_registry.py lines 137-148): read the history (defaulting
to empty), append one message with the current timestamp and empty
metadata, and store the list back. -/
def add_to_conversation (st : AgentState) (role content : String)
    (now : Nat) : AgentState :=
  { st with
    conversation := some (get_conversation_history st
      ++ [{ role := role, content := content, timestamp := now,
            metadata := [] }]) }

/-- Python `s.strip()`: remove leading and trailing whitespace. -/
def pyStrip (s : String) : String :=
  String.mk ((((s.data.dropWhile Char.isWhitespace).reverse).dropWhile
    Char.isWhitespace).reverse)

/-- Embeds the submit/clear handling of `BaseAgent.render_chat_input`
(src/agents/agent_registry.py lines 223-263).  `submitted` and
`clear_chat` are the two form buttons, `process_input` is the
agent-specific handler whose raised exception is modelled by
`Except.error`.  On submit with non-blank input the driver appends the
user message, then either the handler's response or, when the handler
raises, the error string `"Sorry, I encountered an error: " ++ e`; the
clear button stores an empty conversation list. -/
def render_chat_input (st : AgentState) (submitted clear_chat : Bool)
    (user_input : String) (process_input : String → Except String String)
    (now : Nat) : AgentState :=
  let st1 :=
    if submitted && !(pyStrip user_input == "") then
      let stU := add_to_conversation st "user" user_input now
      match process_input user_input with
      | Except.ok response => add_to_conversation stU "agent" response now
      | Except.error e =>
          add_to_conversation stU "agent"
            ("Sorry, I encountered an error: " ++ e) now
    else st
  if clear_chat then { st1 with conversation := some [] } else st1

/-- The `OracleConnector` record
(src/agents/database_chat_agent.py lines 21-31).  The live `cx_Oracle`
handle is opaque to the embedding, so `connection` is `Option Unit`:
`none` is Python `self.connection = None`. -/
structure OracleConnector where
  host : String
  user : String
  password : String
  port : Nat
  service_name : String
  connection : Option Unit
deriving DecidableEq, Repr

/-- Embeds `OracleConnector.close`
(src/agents/database_chat_agent.py lines 153-157): release the handle when
one is held, otherwise do nothing. -/
def OracleConnector.close (c : OracleConnector) : OracleConnector :=
  match c.connection with
  | some _ => { c with connection := none }
  | none => c

/-- Result triple of `OracleConnector.execute_query`: success flag, an
optional data frame (modelled as rows of strings) and an optional
error/notice message. -/
abbrev QueryResult := Bool × Option (List (List String)) × Option String

/-- Embeds `OracleConnector.execute_query`
(src/agents/database_chat_agent.py lines 70-94).  The cursor/network layer
is abstracted as `driver` (its `Except.error` models a raised driver
exception); it is consulted only when a connection handle is held, and
with no handle the function returns the failure triple
`(False, None, "No active connection")` immediately. -/
def OracleConnector.execute_query (c : OracleConnector)
    (driver : String → Except String (List (List String)))
    (query : String) : QueryResult :=
  match c.connection with
  | none => (false, none, some "No active connection")
  | some _ =>
    match driver query with
    | Except.ok rows =>
      if "SELECT".data.isPrefixOf (upperChars (pyStrip query)) then
        (true, some rows, none)
      else
        (true, none, some "Query executed successfully")
    | Except.error e => (false, none, some ("Query execution error: " ++ e))

/-- One statement of the loader's try block: an agent id together with the
outcome of constructing that agent (`Except.error` models the constructor
raising). -/
structure LoadStep (A : Type) where
  id : String
  ctor : Except String A
deriving Repr

/-- Runs the body of `AgentRegistry._load_agents`
(src/agents/agent_registry.py lines 272-293) / `AgentManager.load_agents`
(src/main.py lines 200-215): the construct-and-register statements execute
in order inside a single `try`, so the first raised exception stops the
remaining statements while keeping the registrations already performed
(mutations of `self.agents` are in place and survive the caught
exception). -/
def runLoad {A : Type} : List (LoadStep A) → List (String × A) →
    List (String × A)
  | [], m => m
  | s :: rest, m =>
    match s.ctor with
    | Except.error _ => m
    | Except.ok a => runLoad rest (m ++ [(s.id, a)])

/-- The loader entry point: run the try body on an empty agent map; the
`except` clauses only log, so the map accumulated so far is kept. -/
def load_agents {A : Type} (steps : List (LoadStep A)) :
    List (String × A) :=
  runLoad steps []

/-- Embeds `AgentRegistry.list_agent_ids`
(src/agents/agent_registry.py lines 313-315): the keys of the agent map. -/
def list_agent_ids {A : Type} (agents : List (String × A)) : List String :=
  agents.map Prod.fst

/-- The connection-form configuration collected by the mock
`DatabaseChatAgent.render_connection_interface`
(src/agents/database_chat_agent.py lines 618-659). -/
structure DBConnConfig where
  host : String
  port : Nat
  service_name : String
  username : String
  password : String
  schema : String
  use_ssl : Bool
  timeout : Nat
  pool_size : Nat
  auto_commit : Bool
deriving DecidableEq, Repr

/-- Embeds the mock `DatabaseChatAgent.test_database_connection`
(src/agents/database_chat_agent.py lines 856-859): it ignores the
configuration and reports success unconditionally. -/
def test_database_connection (_config : DBConnConfig) : Bool :=
  true

/-- Embeds the submit branch of the mock
`DatabaseChatAgent.render_connection_interface`
(src/agents/database_chat_agent.py lines 643-666): on submit, when
username and password are both non-empty (Python truthiness) and
`test_database_connection` reports success, `connection_status` becomes
`"connected"`; otherwise the status is left unchanged. -/
def connection_form_submit (status : String) (cfg : DBConnConfig) :
    String :=
  if !(cfg.username == "") && !(cfg.password == "") then
    if test_database_connection cfg then "connected" else status
  else status

/-- `List.find?` returns the element at the first index whose test is
true: if the test holds at index `i` and fails at every earlier index,
the result is the element at `i`. -/
theorem find?_first_match {α : Type} (p : α → Bool) :
    ∀ (l : List α) (i : Nat) (hi : i < l.length),
      p (l.get ⟨i, hi⟩) = true →
      (∀ k (hk : k < l.length), k < i → p (l.get ⟨k, hk⟩) = false) →
      l.find? p = some (l.get ⟨i, hi⟩)
  | [], i, hi, _, _ => absurd hi (by simp)
  | a :: tl, 0, _, hp, _ => by
      simpa using List.find?_cons_of_pos tl hp
  | a :: tl, Nat.succ i, hi, hp, hmin => by
      have ha : p a = false := hmin 0 (by simp) (Nat.succ_pos i)
      rw [List.find?_cons_of_neg tl (by simp [ha])]
      exact find?_first_match p tl i (by simpa using hi) hp
        (fun k hk hki => hmin (k + 1) (by simpa using hk) (by omega))

/-- `runLoad` never removes a registration: ids present in the agent map
stay present. -/
theorem mem_fst_runLoad {A : Type} :
    ∀ (steps : List (LoadStep A)) (m : List (String × A)) (x : String),
      x ∈ list_agent_ids m → x ∈ list_agent_ids (runLoad steps m)
  | [], _, _, h => h
  | s :: rest, m, x, h => by
      unfold runLoad
      match s.ctor with
      | Except.error _ => exact h
      | Except.ok a =>
          exact mem_fst_runLoad rest (m ++ [(s.id, a)]) x
            (by simp [list_agent_ids] at h ⊢; exact Or.inl h)

/-- When every step of a first batch constructs successfully, running the
concatenation of two batches runs the first to completion and continues
with the second. -/
theorem runLoad_append_ok {A : Type} :
    ∀ (xs ys : List (LoadStep A)) (m : List (String × A)),
      (∀ t ∈ xs, ∃ x, t.ctor = Except.ok x) →
      runLoad (xs ++ ys) m = runLoad ys (runLoad xs m)
  | [], _, _, _ => rfl
  | s :: rest, ys, m, h => by
      obtain ⟨x, hx⟩ := h s (List.mem_cons_self s rest)
      simp only [List.cons_append, runLoad, hx]
      exact runLoad_append_ok rest ys (m ++ [(s.id, x)])
        (fun t ht => h t (List.mem_cons_of_mem s ht))

/-- C1 counterexample: calling the translator as it is effectively bound
on the class (the later definition wins in a Python class body) on
`"show me all customers"` with catalog `["CUSTOMERS", "ORDERS"]` does not
produce `SELECT * FROM CUSTOMERS`; it produces the no-query sentinel,
because the later definition requires the substring `"from"` alongside
`"all"`. -/
theorem c1_counterexample :
    natural_language_to_sql_v2 ["CUSTOMERS", "ORDERS"] "show me all customers"
      ≠ some "SELECT * FROM CUSTOMERS"
    ∧ natural_language_to_sql_v2 ["CUSTOMERS", "ORDERS"] "show me all customers"
      = none := by decide

/-- C1 amended: with catalog `["CUSTOMERS", "ORDERS"]` the effectively
bound translator (the later definition) maps all three probe inputs to the
no-query sentinel `none`; the earlier, shadowed definition (given a live
connector) maps `"show me all customers"` to exactly
`SELECT * FROM CUSTOMERS`, maps `"how many orders"` to
`SELECT COUNT(*) as total_rows FROM ORDERS` (not exactly
`SELECT COUNT(*) FROM ORDERS`), and maps `"tell me a joke"` to `none`. -/
theorem c1_amended_translator_values :
    natural_language_to_sql_v2 ["CUSTOMERS", "ORDERS"] "show me all customers" = none
    ∧ natural_language_to_sql_v2 ["CUSTOMERS", "ORDERS"] "how many orders" = none
    ∧ natural_language_to_sql_v2 ["CUSTOMERS", "ORDERS"] "tell me a joke" = none
    ∧ natural_language_to_sql_v1 true ["CUSTOMERS", "ORDERS"] "show me all customers"
        = some "SELECT * FROM CUSTOMERS"
    ∧ natural_language_to_sql_v1 true ["CUSTOMERS", "ORDERS"] "how many orders"
        = some "SELECT COUNT(*) as total_rows FROM ORDERS"
    ∧ natural_language_to_sql_v1 true ["CUSTOMERS", "ORDERS"] "tell me a joke" = none := by
  decide

/-- C9: the two coexisting `natural_language_to_sql` implementations are
not extensionally equal: on catalog `["CUSTOMERS", "ORDERS"]` they differ
on `"show me all customers"` (which has `show` without `from`) and on
`"how many orders"` (which has `how many` without `count`). -/
theorem c9_variants_diverge :
    natural_language_to_sql_v1 true ["CUSTOMERS", "ORDERS"] "show me all customers"
      ≠ natural_language_to_sql_v2 ["CUSTOMERS", "ORDERS"] "show me all customers"
    ∧ natural_language_to_sql_v1 true ["CUSTOMERS", "ORDERS"] "how many orders"
      ≠ natural_language_to_sql_v2 ["CUSTOMERS", "ORDERS"] "how many orders"
    ∧ natural_language_to_sql_v1 true ["CUSTOMERS", "ORDERS"] "show me all customers"
      = some "SELECT * FROM CUSTOMERS"
    ∧ natural_language_to_sql_v2 ["CUSTOMERS", "ORDERS"] "show me all customers"
      = none := by decide

/-- C2 counterexample: when the first construct-and-register statement of
the loading block raises, the loader's single try/except aborts the
remaining statements, so `database_chat` — whose own constructor succeeds,
as the second conjunct shows by loading it alone — is absent from
`list_agent_ids`. -/
theorem c2_counterexample :
    "database_chat" ∉ list_agent_ids (load_agents
      ([{ id := "brd_generator", ctor := Except.error "construction failed" },
        { id := "database_chat", ctor := Except.ok () }] : List (LoadStep Unit)))
    ∧ "database_chat" ∈ list_agent_ids (load_agents
      ([{ id := "database_chat", ctor := Except.ok () }] : List (LoadStep Unit))) := by
  decide

/-- C2 amended: an agent preceded only by successful constructions is
registered and reported by `list_agent_ids` even when a later agent's
construction raises; but a raising construction aborts the statements
after it (the exception is caught only around the whole loading block), so
the agents after the failing one are not constructed or registered. -/
theorem c2_amended_load_tolerance {A : Type} (pre : List (LoadStep A))
    (s : LoadStep A) (post : List (LoadStep A)) (a : A)
    (h : ∀ t ∈ pre, ∃ x, t.ctor = Except.ok x) :
    (s.ctor = Except.ok a →
      s.id ∈ list_agent_ids (load_agents (pre ++ s :: post)))
    ∧ (∀ e, s.ctor = Except.error e →
      load_agents (pre ++ s :: post) = load_agents pre) := by
  have hsplit := runLoad_append_ok pre (s :: post) [] h
  constructor
  · intro hs
    rw [load_agents, hsplit]
    show s.id ∈ list_agent_ids (runLoad (s :: post) (runLoad pre []))
    unfold runLoad
    rw [hs]
    exact mem_fst_runLoad post _ s.id (by simp [list_agent_ids])
  · intro e he
    rw [load_agents, load_agents, hsplit]
    show runLoad (s :: post) (runLoad pre []) = runLoad pre []
    simp only [runLoad, he]

/-- C2 witness: with a successful `brd_generator` before it and a failing
agent after it, `database_chat` is loaded and listed. -/
theorem c2_amended_load_tolerance_witness :
    "database_chat" ∈ list_agent_ids (load_agents
      (([{ id := "brd_generator", ctor := Except.ok () }] : List (LoadStep Unit))
        ++ { id := "database_chat", ctor := Except.ok () }
          :: [{ id := "other", ctor := Except.error "boom" }])) :=
  (c2_amended_load_tolerance
    [{ id := "brd_generator", ctor := Except.ok () }]
    { id := "database_chat", ctor := Except.ok () }
    [{ id := "other", ctor := Except.error "boom" }] ()
    (by intro t ht
        simp only [List.mem_singleton] at ht
        exact ⟨(), by rw [ht]⟩)).1 rfl

/-- C3: a submitted turn with non-blank input appends exactly two messages
to the conversation, first the user message carrying the input, then an
agent message; when `process_input` raises, the agent message is the error
string embedding the failure description and the failure does not escape
the driver; the clear-chat button instead resets the conversation to the
empty list. -/
theorem c3_turn_appends_two (st : AgentState) (user_input : String)
    (process_input : String → Except String String) (now : Nat)
    (h : pyStrip user_input ≠ "") :
    (∃ resp : String,
      get_conversation_history
          (render_chat_input st true false user_input process_input now)
        = get_conversation_history st
          ++ [{ role := "user", content := user_input, timestamp := now,
                metadata := [] },
              { role := "agent", content := resp, timestamp := now,
                metadata := [] }])
    ∧ (∀ e, process_input user_input = Except.error e →
      get_conversation_history
          (render_chat_input st true false user_input process_input now)
        = get_conversation_history st
          ++ [{ role := "user", content := user_input, timestamp := now,
                metadata := [] },
              { role := "agent",
                content := "Sorry, I encountered an error: " ++ e,
                timestamp := now, metadata := [] }])
    ∧ (∀ submitted : Bool,
      get_conversation_history
          (render_chat_input st submitted true user_input process_input now)
        = []) := by
  have hb : (pyStrip user_input == "") = false := beq_eq_false_iff_ne.mpr h
  refine ⟨?_, ?_, fun _ => rfl⟩
  · cases hp : process_input user_input with
    | ok r =>
        exact ⟨r, by
          simp [render_chat_input, hb, hp, add_to_conversation,
            get_conversation_history]⟩
    | error e =>
        exact ⟨"Sorry, I encountered an error: " ++ e, by
          simp [render_chat_input, hb, hp, add_to_conversation,
            get_conversation_history]⟩
  · intro e hp
    simp [render_chat_input, hb, hp, add_to_conversation,
      get_conversation_history]

/-- C3 witness: a concrete turn on the empty state with input `"hi"`. -/
theorem c3_turn_appends_two_witness :
    pyStrip "hi" ≠ ""
    ∧ ((∃ resp : String,
        get_conversation_history
            (render_chat_input ⟨none, none⟩ true false "hi"
              (fun _ => Except.ok "ok") 0)
          = get_conversation_history (⟨none, none⟩ : AgentState)
            ++ [{ role := "user", content := "hi", timestamp := 0,
                  metadata := [] },
                { role := "agent", content := resp, timestamp := 0,
                  metadata := [] }])
      ∧ (∀ e, (fun _ => Except.ok "ok") "hi" = Except.error e →
        get_conversation_history
            (render_chat_input ⟨none, none⟩ true false "hi"
              (fun _ => Except.ok "ok") 0)
          = get_conversation_history (⟨none, none⟩ : AgentState)
            ++ [{ role := "user", content := "hi", timestamp := 0,
                  metadata := [] },
                { role := "agent",
                  content := "Sorry, I encountered an error: " ++ e,
                  timestamp := 0, metadata := [] }])
      ∧ (∀ submitted : Bool,
        get_conversation_history
            (render_chat_input ⟨none, none⟩ submitted true "hi"
              (fun _ => Except.ok "ok") 0)
          = [])) :=
  ⟨by decide,
   c3_turn_appends_two ⟨none, none⟩ "hi" (fun _ => Except.ok "ok") 0
     (by decide)⟩

/-- C4: both table-matching routines pick the first catalog entry, in
catalog order, whose name occurs in the input, even when a later catalog
entry also occurs (they never pick a longest or best match): if the entry
at index `i` matches and no earlier entry does, while some later index `j`
also matches, the chosen table is the entry at `i`. -/
theorem c4_first_catalog_match (tables : List String) (user_input : String)
    (i j : Nat) (hi : i < tables.length) (hj : j < tables.length)
    (hij : i < j)
    (hmi : charsContain (lowerChars user_input)
      (lowerChars (tables.get ⟨i, hi⟩)) = true)
    (hmj : charsContain (lowerChars user_input)
      (lowerChars (tables.get ⟨j, hj⟩)) = true)
    (hmin : ∀ k (hk : k < tables.length), k < i →
      charsContain (lowerChars user_input)
        (lowerChars (tables.get ⟨k, hk⟩)) = false)
    (humi : charsContain (upperChars user_input)
      (tables.get ⟨i, hi⟩).data = true)
    (humin : ∀ k (hk : k < tables.length), k < i →
      charsContain (upperChars user_input)
        (tables.get ⟨k, hk⟩).data = false) :
    mentioned_table tables user_input = some (tables.get ⟨i, hi⟩)
    ∧ extract_table_name tables user_input = some (tables.get ⟨i, hi⟩) :=
  ⟨find?_first_match _ tables i hi hmi hmin,
   find?_first_match _ tables i hi humi humin⟩

/-- C4 witness: catalog `["ORDERS", "ORDER_ITEMS"]` and an input
containing both names: both routines choose `ORDERS`, the first catalog
entry, not the longer match `ORDER_ITEMS`. -/
theorem c4_first_catalog_match_witness :
    mentioned_table ["ORDERS", "ORDER_ITEMS"] "show orders and order_items"
      = some "ORDERS"
    ∧ extract_table_name ["ORDERS", "ORDER_ITEMS"]
        "show orders and order_items" = some "ORDERS" :=
  c4_first_catalog_match ["ORDERS", "ORDER_ITEMS"]
    "show orders and order_items" 0 1 (by decide) (by decide) (by decide)
    (by decide) (by decide)
    (fun k hk hk0 => absurd hk0 (Nat.not_lt_zero k))
    (by decide)
    (fun k hk hk0 => absurd hk0 (Nat.not_lt_zero k))

/-- C5: with no connection held, `close` is a no-op (the connector is
unchanged and the handle stays null, no error), and `execute_query`
returns the failure triple `(False, None, "No active connection")`
whatever the underlying driver would do — the driver is never
consulted. -/
theorem c5_disconnected_semantics (c : OracleConnector)
    (h : c.connection = none) :
    OracleConnector.close c = c
    ∧ (OracleConnector.close c).connection = none
    ∧ ∀ (driver : String → Except String (List (List String)))
        (query : String),
      OracleConnector.execute_query c driver query
        = (false, none, some "No active connection") := by
  refine ⟨?_, ?_, ?_⟩
  · simp [OracleConnector.close, h]
  · simp [OracleConnector.close, h]
  · intro driver query
    simp [OracleConnector.execute_query, h]

/-- C5 witness: a concrete disconnected connector. -/
theorem c5_disconnected_semantics_witness :
    OracleConnector.close ⟨"localhost", "scott", "tiger", 1521, "ORCL", none⟩
      = ⟨"localhost", "scott", "tiger", 1521, "ORCL", none⟩
    ∧ (OracleConnector.close
        ⟨"localhost", "scott", "tiger", 1521, "ORCL", none⟩).connection = none
    ∧ ∀ (driver : String → Except String (List (List String)))
        (query : String),
      OracleConnector.execute_query
          ⟨"localhost", "scott", "tiger", 1521, "ORCL", none⟩ driver query
        = (false, none, some "No active connection") :=
  c5_disconnected_semantics
    ⟨"localhost", "scott", "tiger", 1521, "ORCL", none⟩ rfl

/-- C6: when no session exists, `initialize_session` creates one with
`initialized = true`, `last_activity` equal to the current time, empty
context and empty history, and initializes the conversation without
touching an existing one; a second call (at any later time) changes
nothing: the state after two calls equals the state after one. -/
theorem c6_initialize_session_idempotent (st : AgentState) (now now2 : Nat)
    (h : st.session = none) :
    (initialize_session st now).session
      = some { initialized := true, last_activity := now, context := [],
               history := [] }
    ∧ (initialize_session st now).conversation
      = some (get_conversation_history st)
    ∧ initialize_session (initialize_session st now) now2
      = initialize_session st now := by
  refine ⟨?_, ?_, ?_⟩
  · simp [initialize_session, h]
  · cases hc : st.conversation <;>
      simp [initialize_session, get_conversation_history, hc]
  · cases hc : st.conversation <;>
      simp [initialize_session, h, hc]

/-- C6 witness: the fresh state. -/
theorem c6_initialize_session_idempotent_witness :
    (initialize_session ⟨none, none⟩ 7).session
      = some { initialized := true, last_activity := 7, context := [],
               history := [] }
    ∧ (initialize_session ⟨none, none⟩ 7).conversation
      = some (get_conversation_history (⟨none, none⟩ : AgentState))
    ∧ initialize_session (initialize_session ⟨none, none⟩ 7) 12
      = initialize_session ⟨none, none⟩ 7 :=
  c6_initialize_session_idempotent ⟨none, none⟩ 7 12 rfl

/-- C7: the clear-chat action resets the conversation list to empty and
leaves the agent's session record — context mapping and all other session
keys — unchanged, for every state and every pending input. -/
theorem c7_clear_preserves_session (st : AgentState) (submitted : Bool)
    (user_input : String) (process_input : String → Except String String)
    (now : Nat) :
    (render_chat_input st submitted true user_input process_input now).session
      = st.session
    ∧ (render_chat_input st submitted true user_input process_input
        now).conversation = some [] := by
  constructor
  · show (render_chat_input st submitted true user_input process_input
      now).session = st.session
    unfold render_chat_input
    split
    · split <;> rfl
    · rfl
  · rfl

/-- C8: appending a message with role `user` and content `"hello"` leaves
every earlier message unchanged and in order, makes the appended message
the last element returned by the conversation read accessor, and — under a
non-decreasing clock — gives it a timestamp at least every prior
message's. -/
theorem c8_round_trip (st : AgentState) (now : Nat)
    (h : ∀ m ∈ get_conversation_history st, m.timestamp ≤ now) :
    get_conversation_history (add_to_conversation st "user" "hello" now)
      = get_conversation_history st
        ++ [{ role := "user", content := "hello", timestamp := now,
              metadata := [] }]
    ∧ (get_conversation_history
        (add_to_conversation st "user" "hello" now)).getLast?
      = some { role := "user", content := "hello", timestamp := now,
               metadata := [] }
    ∧ ∀ m ∈ get_conversation_history st,
        m.timestamp ≤ (Message.mk "user" "hello" now []).timestamp := by
  refine ⟨rfl, ?_, h⟩
  show (get_conversation_history st
      ++ [Message.mk "user" "hello" now []]).getLast? = _
  exact List.getLast?_concat _

/-- C8 witness: appending to a one-message history under a clock that
moved from 0 to 1. -/
theorem c8_round_trip_witness :
    (∀ m ∈ get_conversation_history
        (AgentState.mk none (some [Message.mk "agent" "hi" 0 []])),
      m.timestamp ≤ 1)
    ∧ (get_conversation_history (add_to_conversation
          (AgentState.mk none (some [Message.mk "agent" "hi" 0 []]))
          "user" "hello" 1)
        = get_conversation_history
            (AgentState.mk none (some [Message.mk "agent" "hi" 0 []]))
          ++ [Message.mk "user" "hello" 1 []]
      ∧ (get_conversation_history (add_to_conversation
            (AgentState.mk none (some [Message.mk "agent" "hi" 0 []]))
            "user" "hello" 1)).getLast?
          = some (Message.mk "user" "hello" 1 [])
      ∧ ∀ m ∈ get_conversation_history
            (AgentState.mk none (some [Message.mk "agent" "hi" 0 []])),
          m.timestamp ≤ (Message.mk "user" "hello" 1 []).timestamp) :=
  ⟨by decide,
   c8_round_trip (AgentState.mk none (some [Message.mk "agent" "hi" 0 []]))
     1 (by decide)⟩

/-- C10: the mock connection test reports success for every configuration,
so submitting the connection form with any non-empty username and password
always drives `connection_status` to `"connected"` — bad credentials are
never rejected on this path. -/
theorem c10_mock_connection_always_succeeds (cfg : DBConnConfig)
    (status : String) (h1 : cfg.username ≠ "") (h2 : cfg.password ≠ "") :
    test_database_connection cfg = true
    ∧ connection_form_submit status cfg = "connected" := by
  refine ⟨rfl, ?_⟩
  have hb1 : (cfg.username == "") = false := beq_eq_false_iff_ne.mpr h1
  have hb2 : (cfg.password == "") = false := beq_eq_false_iff_ne.mpr h2
  simp [connection_form_submit, test_database_connection, hb1, hb2]

/-- C10 witness: arbitrary wrong credentials still connect. -/
theorem c10_mock_connection_always_succeeds_witness :
    test_database_connection
      ⟨"nohost", 1, "SVC", "baduser", "badpass", "baduser", false, 30, 5,
        false⟩ = true
    ∧ connection_form_submit "disconnected"
      ⟨"nohost", 1, "SVC", "baduser", "badpass", "baduser", false, 30, 5,
        false⟩ = "connected" :=
  c10_mock_connection_always_succeeds
    ⟨"nohost", 1, "SVC", "baduser", "badpass", "baduser", false, 30, 5,
      false⟩ "disconnected" (by decide) (by decide)
